import Mathlib

/-!
Verification development for `bb_network_decomposition/regression.py`.

The module fits small regression models (null / linear / one-hidden-layer
nonlinear) by maximum likelihood under one of three observation models
(binomial, multinomial, normal) and reports goodness of fit.

Shallow embedding: torch tensors are modelled as rational matrices
(`List (List ℚ)`, rows = observations).  Library functions whose numerical
bodies live outside this repository (torch's `tanh`, `sigmoid`, `softplus`,
`softmax`, the distribution `log_prob` functions, `orthogonal_` random
initialisation, the LBFGS optimizer step, sklearn's metrics) are abstract
function parameters: the code under verification only composes them, and
every property proved here holds for any instantiation.  Python `assert`
failures and exceptions are modelled with `Except String`.
-/

namespace BBNet

/-- A torch 2-D tensor: list of rows of rationals. -/
abbrev Mat := List (List ℚ)

/-- Dot product of two rows. -/
def dot (u v : List ℚ) : ℚ := (List.zipWith (· * ·) u v).sum

/-- Transpose of a rectangular matrix (structural recursion on rows). -/
def transposeQ : Mat → Mat
  | [] => []
  | [r] => r.map (fun x => [x])
  | r :: rs => List.zipWith (fun x c => x :: c) r (transposeQ rs)

/-- Matrix product, modelling `torch.mm`: entry `(i, j)` is the dot product
of row `i` of `A` with column `j` of `B`. -/
def matMul (A B : Mat) : Mat :=
  A.map (fun r => (transposeQ B).map (fun c => dot r c))

/-- Add a bias (row) vector to every row, modelling broadcast `+`. -/
def addBias (A : Mat) (b : List ℚ) : Mat :=
  A.map (fun r => List.zipWith (· + ·) r b)

/-- Elementwise map over a matrix. -/
def mapMat (f : ℚ → ℚ) (A : Mat) : Mat := A.map (List.map f)

/-- Elementwise binary zip over two matrices. -/
def zipMat (f : ℚ → ℚ → ℚ) (A B : Mat) : Mat :=
  List.zipWith (List.zipWith f) A B

/-- Size of the last dimension (`t.shape[-1]`) of a rectangular tensor. -/
def numCols (A : Mat) : Nat := (A.headD []).length

/-- Column 0 (`t[:, 0]`) of a matrix. -/
def col0 (A : Mat) : List ℚ := A.map (fun r => r.headD 0)

/-- Three-way `zipWith`, used for elementwise distribution parameters. -/
def zipWith3 (f : ℚ → ℚ → ℚ → ℚ) : List ℚ → List ℚ → List ℚ → List ℚ
  | a :: as, b :: bs, c :: cs => f a b c :: zipWith3 f as bs cs
  | _, _, _ => []

/-- The loop of `get_output` (regression.py lines 13-16): for each index `i`
into `coeffs`, replace `X` by `X @ coeffs[i] + intercepts[i]`, applying `tanh`
afterwards except after the final layer. -/
def getOutputLoop (tanh : ℚ → ℚ) (intercepts : List (List ℚ))
    (coeffs : List Mat) (X : Mat) (i : Nat) : Mat :=
  if h : i < coeffs.length then
    let X1 := addBias (matMul X (coeffs.get ⟨i, h⟩)) (intercepts.getD i [])
    let X2 := if i < coeffs.length - 1 then mapMat tanh X1 else X1
    getOutputLoop tanh intercepts coeffs X2 (i + 1)
  else X
termination_by coeffs.length - i

/-- `get_output` (regression.py lines 12-25).  Runs the affine/tanh layer
loop; in the null-model case (`coeffs` empty) the result is instead the last
intercept broadcast against `Y * 0`.  Python's `intercepts[-1]` raises
`IndexError` on an empty list, modelled by the error branch. -/
def get_output (tanh : ℚ → ℚ) (X Y : Mat) (intercepts : List (List ℚ))
    (coeffs : List Mat) : Except String Mat :=
  let Xout := getOutputLoop tanh intercepts coeffs X 0
  if coeffs.length = 0 then
    match intercepts.getLast? with
    | none => .error "IndexError"
    | some b => .ok (addBias (mapMat (fun y => y * 0) Y) b)
  else
    .ok Xout

/-- The spec's description of the output transform, for refinement
comparison with `get_output`: apply each affine layer `X = X @ W + b` in
sequence, with a hyperbolic tangent after every layer except the last. -/
def specLayers (tanh : ℚ → ℚ) (X : Mat) : List (Mat × List ℚ) → Mat
  | [] => X
  | [(W, b)] => addBias (matMul X W) b
  | (W, b) :: l :: rest =>
      specLayers tanh (mapMat tanh (addBias (matMul X W) b)) (l :: rest)

/-- Abstract numerical library functions used by the evaluators; they model
`torch.tanh`, `torch.sigmoid`, `softplus`, the per-element
`Binomial(logits, total_count).log_prob(y)` (arguments: logit, total count,
observed count), the per-element `Normal(mean, sd).log_prob(y)` (arguments:
mean, standard deviation, observation), the per-row `softmax`, and the
per-row `Multinomial(logits).log_prob(counts)`. -/
structure LibFns where
  tanh : ℚ → ℚ
  sigmoid : ℚ → ℚ
  softplus : ℚ → ℚ
  binomLogProb : ℚ → ℚ → ℚ → ℚ
  normalLogProb : ℚ → ℚ → ℚ → ℚ
  softmaxRow : List ℚ → List ℚ
  multiLogProb : List ℚ → List ℚ → ℚ

/-- `evaluate_binomial` (regression.py lines 28-40): asserts the output has
last dimension exactly 1, then returns the per-row binomial log-probability
of `Y[:, 0]` and the sigmoid success probabilities. -/
def evaluate_binomial (L : LibFns) (X Y : Mat) (total_counts : Option (List ℚ))
    (scale : Option ℚ) (intercepts : List (List ℚ)) (coeffs : List Mat) :
    Except String (List ℚ × List ℚ) :=
  match get_output L.tanh X Y intercepts coeffs with
  | .error e => .error e
  | .ok logits =>
    if numCols logits = 1 then
      let l0 := col0 logits
      let probs := l0.map L.sigmoid
      let log_probs := zipWith3 L.binomLogProb l0 (total_counts.getD []) (col0 Y)
      .ok (log_probs, probs)
    else
      .error "AssertionError"

/-- `evaluate_normal` (regression.py lines 43-51): treats the transform
output as predicted means, builds a normal distribution with standard
deviation `softplus scale + eps` (eps = 1/1000 by default in the source) and
returns the elementwise log-densities and the means.  `total_counts` is
accepted but never used.  A `none` scale would be a Python `TypeError`
inside `softplus`. -/
def evaluate_normal (L : LibFns) (X Y : Mat) (total_counts : Option (List ℚ))
    (scale : Option ℚ) (intercepts : List (List ℚ)) (coeffs : List Mat)
    (eps : ℚ) : Except String (Mat × Mat) :=
  match get_output L.tanh X Y intercepts coeffs with
  | .error e => .error e
  | .ok means =>
    match scale with
    | none => .error "TypeError"
    | some s =>
      let sd := L.softplus s + eps
      let log_probs := zipMat (fun m y => L.normalLogProb m sd y) means Y
      .ok (log_probs, means)

/-- `evaluate_multinomial` (regression.py lines 54-61): softmax class
probabilities and per-row multinomial log-probability of the observed count
rows. -/
def evaluate_multinomial (L : LibFns) (X Y : Mat)
    (total_counts : Option (List ℚ)) (scale : Option ℚ)
    (intercepts : List (List ℚ)) (coeffs : List Mat) :
    Except String (List ℚ × Mat) :=
  match get_output L.tanh X Y intercepts coeffs with
  | .error e => .error e
  | .ok logits =>
    let probs := logits.map L.softmaxRow
    let log_probs := List.zipWith L.multiLogProb logits Y
    .ok (log_probs, probs)

/-- Tag deciding which evaluator a Python call passes as `evaluation_fn`;
`get_fitted_model` compares it against `evaluate_normal` by identity. -/
inductive EvalFn
  | binomial
  | normal
  | multinomial
deriving DecidableEq

/-- A 1-D or 2-D result tensor (binomial returns vectors, the other
evaluators matrices). -/
inductive Arr
  | vec (v : List ℚ)
  | mat (m : Mat)
deriving DecidableEq

/-- Sum of all elements, modelling `t.sum().item()`. -/
def Arr.sum : Arr → ℚ
  | .vec v => v.sum
  | .mat m => (m.map List.sum).sum

/-- Number of elements, used for `t.mean().item()`. -/
def Arr.numel : Arr → Nat
  | .vec v => v.length
  | .mat m => (m.map List.length).sum

/-- Mean of all elements, modelling `t.mean().item()`. -/
def Arr.mean (a : Arr) : ℚ := a.sum / (a.numel : ℚ)

/-- Dispatch on the evaluation function, with both results coerced into
`Arr` (log-probabilities, point estimate). -/
def runEval (L : LibFns) (efn : EvalFn) (X Y : Mat)
    (total_counts : Option (List ℚ)) (scale : Option ℚ)
    (intercepts : List (List ℚ)) (coeffs : List Mat) :
    Except String (Arr × Arr) :=
  match efn with
  | .binomial =>
    match evaluate_binomial L X Y total_counts scale intercepts coeffs with
    | .error e => .error e
    | .ok r => .ok (.vec r.1, .vec r.2)
  | .normal =>
    match evaluate_normal L X Y total_counts scale intercepts coeffs (1/1000) with
    | .error e => .error e
    | .ok r => .ok (.mat r.1, .mat r.2)
  | .multinomial =>
    match evaluate_multinomial L X Y total_counts scale intercepts coeffs with
    | .error e => .error e
    | .ok r => .ok (.vec r.1, .mat r.2)

/-- The parameters a fit allocates: weight matrices (`coeffs`), bias vectors
(`intercepts`) and the optional scalar `scale` (present exactly for the
normal evaluator).  The torch optimizer mutates parameter values in place;
the Python lists themselves are never restructured. -/
structure Params where
  coeffs : List Mat
  intercepts : List (List ℚ)
  scale : Option ℚ
deriving DecidableEq

/-- Parameter allocation of `get_fitted_model` (regression.py lines 84-96):
start from empty lists, add the hidden bias and the two hidden weight
matrices (nonlinear) or the single weight matrix (linear) unless `null`,
then unconditionally append the output bias of size `K = Y.shape[-1]`.
`orthInit rows cols` models `torch.nn.init.orthogonal_(torch.randn(shape))`;
zero biases are `torch.zeros`. -/
def allocateParams (orthInit : Nat → Nat → Mat) (null nonlinear : Bool)
    (D K H : Nat) : List (List ℚ) × List Mat :=
  let intercepts : List (List ℚ) := []
  let coeffs : List Mat := []
  let (intercepts, coeffs) :=
    if null = false then
      if nonlinear = true then
        (intercepts ++ [List.replicate H (0 : ℚ)],
         coeffs ++ [orthInit D H, orthInit H K])
      else
        (intercepts, coeffs ++ [orthInit D K])
    else
      (intercepts, coeffs)
  (intercepts ++ [List.replicate K (0 : ℚ)], coeffs)

/-- The LBFGS `closure` (regression.py lines 108-115): evaluate the model and
return the total negative log-likelihood `-log_probs.sum()`. -/
def lossClosure (L : LibFns) (efn : EvalFn) (X Y : Mat)
    (total_counts : Option (List ℚ)) (p : Params) : Except String ℚ :=
  match runEval L efn X Y total_counts p.scale p.intercepts p.coeffs with
  | .error e => .error e
  | .ok r => .ok (-(Arr.sum r.1))

/-- The optimization loop (regression.py lines 117-118): each of the `n`
iterations calls `optimizer.step(closure)`, which evaluates the closure (an
exception there aborts the fit) and updates the parameters.  There is no
convergence test of any kind. -/
def runSteps (closure : Params → Except String ℚ) (step : Params → Params) :
    Nat → Params → Except String Params
  | 0, p => .ok p
  | n + 1, p =>
    match closure p with
    | .error e => .error e
    | .ok _ => runSteps closure step n (step p)

/-- Result of a successful fit: the (trained, in-place updated) parameters
and the evaluator variant, together forming the closure returned by
`functools.partial` in the source. -/
structure Fitted where
  params : Params
  evalFn : EvalFn
deriving DecidableEq

/-- `get_fitted_model` (regression.py lines 64-124).  `optStep lr closure`
models one `torch.optim.LBFGS(params, lr).step(closure)` parameter update;
`orthInit` the random orthogonal initialisation.  Allocates parameters by
variant, asserts `total_counts is None` when the evaluation function is the
normal one (allocating the scalar scale parameter in that case), runs
exactly `num_steps` optimizer steps with learning rate 1/10, and returns the
bound evaluator.  Source defaults: `num_steps = 10`, `hidden_size = 8`. -/
def get_fitted_model (L : LibFns) (orthInit : Nat → Nat → Mat)
    (optStep : ℚ → (Params → Except String ℚ) → Params → Params)
    (X Y : Mat) (total_counts : Option (List ℚ)) (evaluation_fn : EvalFn)
    (null nonlinear : Bool) (num_steps hidden_size : Nat) :
    Except String Fitted :=
  let alloc := allocateParams orthInit null nonlinear (numCols X) (numCols Y)
    hidden_size
  let scaleRes : Except String (Option ℚ) :=
    if evaluation_fn = .normal then
      match total_counts with
      | some _ => .error "AssertionError"
      | none => .ok (some 0)
    else
      .ok none
  match scaleRes with
  | .error e => .error e
  | .ok scale =>
    let p0 : Params := ⟨alloc.2, alloc.1, scale⟩
    let closure := lossClosure L evaluation_fn X Y total_counts
    match runSteps closure (optStep (1/10) closure) num_steps p0 with
    | .error e => .error e
    | .ok pF => .ok ⟨pF, evaluation_fn⟩

/-- The bound evaluator returned by `get_fitted_model`: calling the
`functools.partial` closure on new data evaluates the fitted parameters. -/
def Fitted.evaluate (F : Fitted) (L : LibFns) (X Y : Mat)
    (total_counts : Option (List ℚ)) : Except String (Arr × Arr) :=
  runEval L F.evalFn X Y total_counts F.params.scale F.params.intercepts
    F.params.coeffs

/-- A value in the results dictionary: a Python float from `.item()`, or a
numpy array from `.detach().cpu().numpy()`. -/
inductive RVal
  | num (q : ℚ)
  | arr (a : Arr)
deriving DecidableEq

/-- Modelled from the spec: `rho_mcf` lives in `bb_network_decomposition.stats`,
which is not among the provided source files; the spec's glossary defines the
McFadden pseudo-R2 as one minus the ratio of fitted to null log-likelihood. -/
def rho_mcf (fitted null : ℚ) : ℚ := 1 - fitted / null

/-- Column-wise standardization `X /= X.std(axis=0)[None, :]` (regression.py
lines 135, 185, 188): each row is divided elementwise by the vector of
per-column standard deviations.  The standard-deviation vector `stds` is a
parameter because numpy's square root is irrational; theorems constrain it
by `s ^ 2 = variance`. -/
def standardizeMat (stds : List ℚ) (A : Mat) : Mat :=
  A.map (fun r => List.zipWith (fun x s => x / s) r stds)

/-- numpy column mean. -/
def npMean (c : List ℚ) : ℚ := c.sum / (c.length : ℚ)

/-- numpy column variance (`ddof = 0`), the square of `np.std`. -/
def npVariance (c : List ℚ) : ℚ :=
  ((c.map (fun x => (x - npMean c) ^ 2)).sum) / (c.length : ℚ)

/-- Column `j` of a matrix. -/
def colAt (j : Nat) (A : Mat) : List ℚ := A.map (fun r => r.getD j 0)

/-- Body of the `for nonlinear in (False, True)` loop shared by both
orchestrators (regression.py lines 148-157 and 195-208): fit a non-null
model, evaluate it on the training data, and record the summed, mean and
per-observation log-likelihoods under keys derived from `name`.  The
continuous orchestrator additionally records `mse`/`r2` entries first, which
`extra` carries (empty for the categorical orchestrator). -/
def fitEntries (L : LibFns) (orthInit : Nat → Nat → Mat)
    (optStep : ℚ → (Params → Except String ℚ) → Params → Params)
    (X Y : Mat) (total_counts : Option (List ℚ)) (efn : EvalFn)
    (nonlinear : Bool) (name : String) (extra : Arr → List (String × RVal)) :
    Except String (ℚ × List (String × RVal)) :=
  match get_fitted_model L orthInit optStep X Y total_counts efn false
      nonlinear 10 8 with
  | .error e => .error e
  | .ok F =>
    match F.evaluate L X Y total_counts with
    | .error e => .error e
    | .ok r =>
      .ok (r.1.sum,
        extra r.2 ++
        [("fitted_" ++ name, .num r.1.sum),
         ("fitted_" ++ name ++ "_mean", .num r.1.mean),
         ("fitted_" ++ name ++ "_lls", .arr r.1)])

/-- `get_location_likelihoods` (regression.py lines 127-174), starting from
the columns already extracted from the dataframe: `X0` the raw predictor
matrix, `probs` the label proportions, `total_counts_used` the
`location_descriptor_count` column, and `stdsX` the numpy per-column
standard deviations of `X0`.  Standardizes `X`, recovers the count matrix,
fits linear, nonlinear and null models, and assembles the results
dictionary including the two McFadden pseudo-R2 entries. -/
def get_location_likelihoods (L : LibFns) (orthInit : Nat → Nat → Mat)
    (optStep : ℚ → (Params → Except String ℚ) → Params → Params)
    (stdsX : List ℚ) (X0 probs : Mat) (total_counts_used : List ℚ)
    (evaluation_fn : EvalFn) : Except String (List (String × RVal)) :=
  let X := standardizeMat stdsX X0
  let counts := List.zipWith (fun t r => r.map (fun p => t * p))
    total_counts_used probs
  let tc := some total_counts_used
  match fitEntries L orthInit optStep X counts tc evaluation_fn false
      "linear" (fun _ => []) with
  | .error e => .error e
  | .ok lin =>
    match fitEntries L orthInit optStep X counts tc evaluation_fn true
        "nonlinear" (fun _ => []) with
    | .error e => .error e
    | .ok nl =>
      match get_fitted_model L orthInit optStep X counts tc evaluation_fn
          true false 10 8 with
      | .error e => .error e
      | .ok Fn =>
        match Fn.evaluate L X counts tc with
        | .error e => .error e
        | .ok rn =>
          .ok (lin.2 ++ nl.2 ++
            [("null", .num rn.1.sum),
             ("null_mean", .num rn.1.mean),
             ("null_lls", .arr rn.1),
             ("rho_mcf_linear", .num (rho_mcf lin.1 rn.1.sum)),
             ("rho_mcf_nonlinear", .num (rho_mcf nl.1 rn.1.sum))])

/-- `get_regression_likelihoods` (regression.py lines 177-217), starting
from the extracted predictor matrix `X0` and response matrix `Y0` with their
numpy per-column standard deviations.  Both are standardized; no total
counts are constructed.  `mseFn`/`r2Fn` model
`sklearn.metrics.mean_squared_error` and `sklearn.metrics.r2_score` applied
to the standardized response and the fitted point estimate. -/
def get_regression_likelihoods (L : LibFns) (orthInit : Nat → Nat → Mat)
    (optStep : ℚ → (Params → Except String ℚ) → Params → Params)
    (mseFn r2Fn : Mat → Arr → ℚ) (stdsX stdsY : List ℚ) (X0 Y0 : Mat)
    (evaluation_fn : EvalFn) : Except String (List (String × RVal)) :=
  let X := standardizeMat stdsX X0
  let Y := standardizeMat stdsY Y0
  match fitEntries L orthInit optStep X Y none evaluation_fn false "linear"
      (fun yhat => [("fitted_linear_mse", .num (mseFn Y yhat)),
                    ("fitted_linear_r2", .num (r2Fn Y yhat))]) with
  | .error e => .error e
  | .ok lin =>
    match fitEntries L orthInit optStep X Y none evaluation_fn true
        "nonlinear"
        (fun yhat => [("fitted_nonlinear_mse", .num (mseFn Y yhat)),
                      ("fitted_nonlinear_r2", .num (r2Fn Y yhat))]) with
    | .error e => .error e
    | .ok nl =>
      match get_fitted_model L orthInit optStep X Y none evaluation_fn
          true false 10 8 with
      | .error e => .error e
      | .ok Fn =>
        match Fn.evaluate L X Y none with
        | .error e => .error e
        | .ok rn =>
          .ok (lin.2 ++ nl.2 ++
            [("null", .num rn.1.sum),
             ("null_mean", .num rn.1.mean)])

/-! Concrete fixtures used by witness theorems: a trivial instantiation of
the abstract library functions, a deterministic stand-in for the random
orthogonal initialisation, and an optimizer step that returns the
parameters unchanged. -/

/-- Fixture library functions for witnesses. -/
def trivialLib : LibFns :=
  ⟨id, id, id, fun a b c => a + b + c, fun a b c => a + b + c, id,
   fun a b => a.sum + b.sum⟩

/-- Fixture initialisation (all-zeros matrix of the requested shape). -/
def zeroInit (D K : Nat) : Mat := List.replicate D (List.replicate K (0 : ℚ))

/-- Fixture optimizer step that leaves the parameters unchanged. -/
def idStep (lr : ℚ) (cl : Params → Except String ℚ) (p : Params) : Params := p

/-- Fixture metric function for witnesses. -/
def zeroMetric (Y : Mat) (a : Arr) : ℚ := 0

/-- The torch optimizer contract: a step updates parameter values in place
and never restructures the parameter lists or changes tensor shapes. -/
def PreservesShapes (step : Params → Params) : Prop :=
  ∀ p : Params, (step p).coeffs.length = p.coeffs.length ∧
    (step p).intercepts.map List.length = p.intercepts.map List.length

/-- Result list produced by the continuous orchestrator on zero data. -/
def regDemoRes : List (String × RVal) :=
  [("fitted_linear_mse", RVal.num 0),
   ("fitted_linear_r2", RVal.num 0),
   ("fitted_linear", RVal.num 0),
   ("fitted_linear_mean", RVal.num 0),
   ("fitted_linear_lls", RVal.arr (Arr.vec [0])),
   ("fitted_nonlinear_mse", RVal.num 0),
   ("fitted_nonlinear_r2", RVal.num 0),
   ("fitted_nonlinear", RVal.num 0),
   ("fitted_nonlinear_mean", RVal.num 0),
   ("fitted_nonlinear_lls", RVal.arr (Arr.vec [0])),
   ("null", RVal.num 0),
   ("null_mean", RVal.num 0)]

/-- Result list produced by the categorical orchestrator on zero data. -/
def locDemoRes : List (String × RVal) :=
  [("fitted_linear", RVal.num 0),
   ("fitted_linear_mean", RVal.num 0),
   ("fitted_linear_lls", RVal.arr (Arr.vec [0])),
   ("fitted_nonlinear", RVal.num 0),
   ("fitted_nonlinear_mean", RVal.num 0),
   ("fitted_nonlinear_lls", RVal.arr (Arr.vec [0])),
   ("null", RVal.num 0),
   ("null_mean", RVal.num 0),
   ("null_lls", RVal.arr (Arr.vec [0])),
   ("rho_mcf_linear", RVal.num 1),
   ("rho_mcf_nonlinear", RVal.num 1)]

/-- C9: the normal evaluator never reads its `total_counts` argument, so its
result (log-densities, mean predictions, or error) is identical for any two
values of that argument, `None` included; the normal/total-counts
mutual-exclusion check lives only in `get_fitted_model`. -/
theorem evaluate_normal_ignores_total_counts (L : LibFns) (X Y : Mat)
    (tc1 tc2 : Option (List ℚ)) (scale : Option ℚ)
    (intercepts : List (List ℚ)) (coeffs : List Mat) (eps : ℚ) :
    evaluate_normal L X Y tc1 scale intercepts coeffs eps =
      evaluate_normal L X Y tc2 scale intercepts coeffs eps := rfl

/-- C5: the fitter's parameter allocation by variant.  Null (either
nonlinearity flag): one zero output bias of size `K`, no weights.  Linear:
one orthogonally-initialised `D × K` weight and the zero output bias.
Nonlinear: zero hidden bias of size `H`, orthogonally-initialised `D × H`
and `H × K` weights, and the zero output bias. -/
theorem allocateParams_by_variant (orthInit : Nat → Nat → Mat) (D K H : Nat) :
    allocateParams orthInit true false D K H =
      ([List.replicate K (0 : ℚ)], []) ∧
    allocateParams orthInit true true D K H =
      ([List.replicate K (0 : ℚ)], []) ∧
    allocateParams orthInit false false D K H =
      ([List.replicate K (0 : ℚ)], [orthInit D K]) ∧
    allocateParams orthInit false true D K H =
      ([List.replicate H (0 : ℚ), List.replicate K (0 : ℚ)],
       [orthInit D H, orthInit H K]) :=
  ⟨rfl, rfl, rfl, rfl⟩

/-- C1: fitting with the normal evaluator and a non-null `total_counts`
aborts immediately with an `AssertionError`; no optimizer step or evaluator
call ever happens. -/
theorem get_fitted_model_normal_rejects_total_counts (L : LibFns)
    (orthInit : Nat → Nat → Mat)
    (optStep : ℚ → (Params → Except String ℚ) → Params → Params)
    (X Y : Mat) (total_counts : Option (List ℚ)) (null nonlinear : Bool)
    (num_steps hidden_size : Nat) (htc : total_counts ≠ none) :
    get_fitted_model L orthInit optStep X Y total_counts .normal null
      nonlinear num_steps hidden_size = .error "AssertionError" := by
  match total_counts with
  | none => exact absurd rfl htc
  | some t => rfl

/-- Witness for C1 at a concrete input. -/
theorem get_fitted_model_normal_rejects_total_counts_witness :
    (some [(1 : ℚ)] ≠ (none : Option (List ℚ))) ∧
    get_fitted_model trivialLib zeroInit idStep [[1]] [[1]] (some [(1 : ℚ)])
      .normal false false 10 8 = .error "AssertionError" :=
  ⟨by decide,
   get_fitted_model_normal_rejects_total_counts trivialLib zeroInit idStep
     [[1]] [[1]] (some [(1 : ℚ)]) false false 10 8 (by decide)⟩

/-- C3: with an empty weight list every evaluator's result only depends on
`Y`, `total_counts`, `scale` and the intercepts: two input matrices of equal
shape give identical results, because the null-model output is the last
intercept broadcast over a zero tensor shaped like `Y`. -/
theorem runEval_null_independent_of_X (L : LibFns) (efn : EvalFn)
    (X1 X2 Y : Mat) (total_counts : Option (List ℚ)) (scale : Option ℚ)
    (intercepts : List (List ℚ))
    (hshape : X1.length = X2.length ∧ numCols X1 = numCols X2) :
    runEval L efn X1 Y total_counts scale intercepts [] =
      runEval L efn X2 Y total_counts scale intercepts [] := by
  have h : get_output L.tanh X1 Y intercepts [] =
      get_output L.tanh X2 Y intercepts [] := rfl
  cases efn <;>
    simp only [runEval, evaluate_binomial, evaluate_normal,
      evaluate_multinomial, h]

/-- Witness for C3 at a concrete input. -/
theorem runEval_null_independent_of_X_witness :
    (([[1]] : Mat).length = ([[2]] : Mat).length ∧
      numCols [[1]] = numCols [[2]]) ∧
    runEval trivialLib .multinomial [[1]] [[3]] none none [[5]] [] =
      runEval trivialLib .multinomial [[2]] [[3]] none none [[5]] [] :=
  ⟨by decide,
   runEval_null_independent_of_X trivialLib .multinomial [[1]] [[2]] [[3]]
     none none [[5]] (by decide)⟩

/-- C4: whenever the output transform succeeds, the binomial evaluator
raises an `AssertionError` exactly when the output's last dimension is not
1; when it is 1, it returns the elementwise binomial log-probability of
`Y[:, 0]` (with the given total counts and the output column as logits)
together with the sigmoid of the logits. -/
theorem evaluate_binomial_assertion (L : LibFns) (X Y : Mat)
    (total_counts : Option (List ℚ)) (scale : Option ℚ)
    (intercepts : List (List ℚ)) (coeffs : List Mat) (logits : Mat)
    (hout : get_output L.tanh X Y intercepts coeffs = .ok logits) :
    (numCols logits ≠ 1 →
      evaluate_binomial L X Y total_counts scale intercepts coeffs =
        .error "AssertionError") ∧
    (numCols logits = 1 →
      evaluate_binomial L X Y total_counts scale intercepts coeffs =
        .ok (zipWith3 L.binomLogProb (col0 logits) (total_counts.getD [])
              (col0 Y),
             (col0 logits).map L.sigmoid)) := by
  constructor <;> intro h <;> simp [evaluate_binomial, hout, h]

/-- Concrete evaluation of the output transform used by the C4 witness. -/
theorem get_output_demo :
    get_output trivialLib.tanh [[1]] [[1, 2]] [[0, 0]] [] =
      .ok [[0, 0]] := by
  simp [get_output, getOutputLoop, trivialLib, addBias, mapMat]

/-- Witness for C4 at a concrete input (output of width 2 is rejected). -/
theorem evaluate_binomial_assertion_witness :
    (get_output trivialLib.tanh [[1]] [[1, 2]] [[0, 0]] [] =
      .ok [[0, 0]]) ∧
    evaluate_binomial trivialLib [[1]] [[1, 2]] none none [[0, 0]] [] =
      .error "AssertionError" :=
  ⟨get_output_demo,
   (evaluate_binomial_assertion trivialLib [[1]] [[1, 2]] none none [[0, 0]]
     [] [[0, 0]] get_output_demo).1 (by decide)⟩

/-- The layer loop of `get_output`, started at index `i`, computes the
spec's sequential affine/tanh composition over the remaining layers. -/
theorem getOutputLoop_spec (tanh : ℚ → ℚ) (coeffs : List Mat)
    (icpts : List (List ℚ)) (hlen : icpts.length = coeffs.length) :
    ∀ k i X, i + k = coeffs.length →
      getOutputLoop tanh icpts coeffs X i =
        specLayers tanh X ((coeffs.drop i).zip (icpts.drop i)) := by
  intro k
  induction k with
  | zero =>
    intro i X hik
    have hnot : ¬ i < coeffs.length := by omega
    rw [getOutputLoop, dif_neg hnot,
      List.drop_eq_nil_of_le (by omega : coeffs.length ≤ i)]
    rfl
  | succ k ih =>
    intro i X hik
    have hi : i < coeffs.length := by omega
    have hi2 : i < icpts.length := by omega
    rw [getOutputLoop, dif_pos hi]
    rw [List.drop_eq_getElem_cons hi, List.drop_eq_getElem_cons hi2]
    simp only [List.get_eq_getElem, List.getD_eq_getElem icpts [] hi2]
    rcases Nat.eq_zero_or_pos k with hk | hk
    · subst hk
      have hlast : ¬ i < coeffs.length - 1 := by omega
      rw [if_neg hlast]
      rw [List.drop_eq_nil_of_le (by omega : coeffs.length ≤ i + 1),
        List.drop_eq_nil_of_le (by omega : icpts.length ≤ i + 1)]
      rw [getOutputLoop, dif_neg (by omega : ¬ i + 1 < coeffs.length)]
      rfl
    · have hmid : i < coeffs.length - 1 := by omega
      rw [if_pos hmid]
      have hi1 : i + 1 < coeffs.length := by omega
      have hi12 : i + 1 < icpts.length := by omega
      rw [ih (i + 1) (mapMat tanh (addBias (matMul X coeffs[i]) icpts[i]))
        (by omega)]
      rw [List.drop_eq_getElem_cons hi1, List.drop_eq_getElem_cons hi12]
      rfl

/-- C2: for a non-empty weight list with matching bias vectors, `get_output`
returns exactly the spec's composition: each affine layer applied in
sequence with tanh after every layer except the last; and with exactly one
weight matrix no tanh is applied at all. -/
theorem get_output_refines_spec (tanh : ℚ → ℚ) (X Y : Mat)
    (intercepts : List (List ℚ)) (coeffs : List Mat)
    (hne : coeffs ≠ []) (hlen : intercepts.length = coeffs.length) :
    get_output tanh X Y intercepts coeffs =
      .ok (specLayers tanh X (coeffs.zip intercepts)) ∧
    (∀ W b, specLayers tanh X [(W, b)] = addBias (matMul X W) b) := by
  refine ⟨?_, fun W b => rfl⟩
  have h0 : ¬ coeffs.length = 0 := by
    simpa [List.length_eq_zero] using hne
  unfold get_output
  rw [if_neg h0]
  have := getOutputLoop_spec tanh coeffs intercepts hlen coeffs.length 0 X
    (by omega)
  simpa using this

/-- Witness for C2 at a concrete one-layer input. -/
theorem get_output_refines_spec_witness :
    (([[[0]]] : List Mat) ≠ [] ∧ ([[0]] : List (List ℚ)).length =
      ([[[0]]] : List Mat).length) ∧
    (get_output id [[0]] [[0]] [[0]] [[[0]]] =
      .ok (specLayers id [[0]] ([[[0]]].zip [[0]])) ∧
    (∀ W b, specLayers id [[0]] [(W, b)] = addBias (matMul [[0]] W) b)) :=
  ⟨⟨by decide, by decide⟩,
   get_output_refines_spec id [[0]] [[0]] [[0]] [[[0]]] (by decide)
     (by decide)⟩

/-- A successful optimization loop applies the optimizer step exactly `n`
times: no early stop and no extra iteration. -/
theorem runSteps_ok_iterate (cl : Params → Except String ℚ)
    (step : Params → Params) :
    ∀ n p q, runSteps cl step n p = .ok q → q = step^[n] p := by
  intro n
  induction n with
  | zero =>
    intro p q h
    simp only [runSteps] at h
    cases h
    rfl
  | succ n ih =>
    intro p q h
    rw [runSteps] at h
    cases hcl : cl p with
    | error e => rw [hcl] at h; cases h
    | ok v =>
      rw [hcl] at h
      rw [ih (step p) q h, Function.iterate_succ_apply]

/-- C6: a successful fit returns after exactly `num_steps` optimizer-step
applications — the parameters are precisely the `num_steps`-fold iterate of
the learning-rate-1/10 step on the freshly allocated parameters, for every
data set, evaluator and flag combination alike — and each step's closure is
the total negative log-likelihood (the negated sum of the per-observation
log-probabilities). -/
theorem get_fitted_model_fixed_iteration (L : LibFns)
    (orthInit : Nat → Nat → Mat)
    (optStep : ℚ → (Params → Except String ℚ) → Params → Params)
    (X Y : Mat) (total_counts : Option (List ℚ)) (efn : EvalFn)
    (null nonlinear : Bool) (num_steps hidden_size : Nat) (F : Fitted)
    (hok : get_fitted_model L orthInit optStep X Y total_counts efn null
      nonlinear num_steps hidden_size = .ok F) :
    F.evalFn = efn ∧
    F.params =
      (optStep (1/10) (lossClosure L efn X Y total_counts))^[num_steps]
        ⟨(allocateParams orthInit null nonlinear (numCols X) (numCols Y)
            hidden_size).2,
         (allocateParams orthInit null nonlinear (numCols X) (numCols Y)
            hidden_size).1,
         if efn = EvalFn.normal then some 0 else none⟩ ∧
    (∀ p lp pe, runEval L efn X Y total_counts p.scale p.intercepts
        p.coeffs = .ok (lp, pe) →
      lossClosure L efn X Y total_counts p = .ok (-(Arr.sum lp))) := by
  refine ?_
  unfold get_fitted_model at hok
  by_cases hefn : efn = EvalFn.normal
  · rw [if_pos hefn] at hok
    cases total_counts with
    | some t => cases hok
    | none =>
      simp only [] at hok
      cases hrs : runSteps (lossClosure L efn X Y none)
          (optStep (1/10) (lossClosure L efn X Y none)) num_steps
          ⟨(allocateParams orthInit null nonlinear (numCols X) (numCols Y)
              hidden_size).2,
           (allocateParams orthInit null nonlinear (numCols X) (numCols Y)
              hidden_size).1, some 0⟩ with
      | error e => rw [hrs] at hok; cases hok
      | ok pF =>
        rw [hrs] at hok
        cases hok
        refine ⟨rfl, ?_, ?_⟩
        · rw [if_pos hefn]
          exact runSteps_ok_iterate _ _ _ _ _ hrs
        · intro p lp pe hre
          simp [lossClosure, hre]
  · rw [if_neg hefn] at hok
    simp only [] at hok
    cases hrs : runSteps (lossClosure L efn X Y total_counts)
        (optStep (1/10) (lossClosure L efn X Y total_counts)) num_steps
        ⟨(allocateParams orthInit null nonlinear (numCols X) (numCols Y)
            hidden_size).2,
         (allocateParams orthInit null nonlinear (numCols X) (numCols Y)
            hidden_size).1, none⟩ with
    | error e => rw [hrs] at hok; cases hok
    | ok pF =>
      rw [hrs] at hok
      cases hok
      refine ⟨rfl, ?_, ?_⟩
      · rw [if_neg hefn]
        exact runSteps_ok_iterate _ _ _ _ _ hrs
      · intro p lp pe hre
        simp [lossClosure, hre]

/-- Witness for C6 at a concrete input with a zero iteration budget. -/
theorem get_fitted_model_fixed_iteration_witness :
    (get_fitted_model trivialLib zeroInit idStep [[1]] [[1]] none
      .multinomial false false 0 8 = .ok ⟨⟨[[[0]]], [[0]], none⟩,
      .multinomial⟩) ∧
    ((⟨⟨[[[0]]], [[0]], none⟩, .multinomial⟩ : Fitted).evalFn =
      .multinomial ∧
    (⟨⟨[[[0]]], [[0]], none⟩, .multinomial⟩ : Fitted).params =
      (idStep (1/10) (lossClosure trivialLib .multinomial [[1]] [[1]]
        none))^[0]
        ⟨(allocateParams zeroInit false false (numCols [[1]])
            (numCols [[1]]) 8).2,
         (allocateParams zeroInit false false (numCols [[1]])
            (numCols [[1]]) 8).1,
         if EvalFn.multinomial = EvalFn.normal then some 0 else none⟩ ∧
    (∀ p lp pe, runEval trivialLib .multinomial [[1]] [[1]] none p.scale
        p.intercepts p.coeffs = .ok (lp, pe) →
      lossClosure trivialLib .multinomial [[1]] [[1]] none p =
        .ok (-(Arr.sum lp)))) :=
  ⟨rfl,
   get_fitted_model_fixed_iteration trivialLib zeroInit idStep [[1]] [[1]]
     none .multinomial false false 0 8 ⟨⟨[[[0]]], [[0]], none⟩,
     .multinomial⟩ rfl⟩

/-- Shape preservation carries through any number of optimizer steps. -/
theorem iterate_intercept_shapes (step : Params → Params)
    (hpres : PreservesShapes step) :
    ∀ n (p : Params), (step^[n] p).intercepts.map List.length =
      p.intercepts.map List.length := by
  intro n
  induction n with
  | zero => intro p; rfl
  | succ n ih =>
    intro p
    rw [Function.iterate_succ_apply, ih (step p)]
    exact (hpres p).2

/-- The allocated intercept list always ends in the size-`K` output bias. -/
theorem allocateParams_intercepts_concat (orthInit : Nat → Nat → Mat)
    (null nonlinear : Bool) (D K H : Nat) :
    ∃ pre, (allocateParams orthInit null nonlinear D K H).1 =
      pre ++ [List.replicate K (0 : ℚ)] := by
  cases null <;> cases nonlinear <;> exact ⟨_, rfl⟩

/-- C10: every parameter set a successful fit returns has a non-empty
intercept list whose last element has the output dimension
`K = Y.shape[-1]` (the unconditionally appended output bias), so the
null-model branch of the output transform, which reads the last intercept,
can never hit an empty list on fitter-produced parameters. -/
theorem fitted_model_intercepts_sound (L : LibFns)
    (orthInit : Nat → Nat → Mat)
    (optStep : ℚ → (Params → Except String ℚ) → Params → Params)
    (X Y : Mat) (total_counts : Option (List ℚ)) (efn : EvalFn)
    (null nonlinear : Bool) (num_steps hidden_size : Nat) (F : Fitted)
    (hok : get_fitted_model L orthInit optStep X Y total_counts efn null
      nonlinear num_steps hidden_size = .ok F)
    (hpres : PreservesShapes
      (optStep (1/10) (lossClosure L efn X Y total_counts))) :
    F.params.intercepts ≠ [] ∧
    (F.params.intercepts.getLast?).map List.length = some (numCols Y) ∧
    ∀ A B : Mat, get_output L.tanh A B F.params.intercepts
      F.params.coeffs ≠ .error "IndexError" := by
  have halloc := allocateParams_intercepts_concat orthInit null nonlinear
    (numCols X) (numCols Y) hidden_size
  obtain ⟨pre, hpre⟩ := halloc
  -- destructure the successful fit as in the fixed-iteration analysis
  have hform : F.params.intercepts.map List.length =
      ((allocateParams orthInit null nonlinear (numCols X) (numCols Y)
        hidden_size).1).map List.length := by
    unfold get_fitted_model at hok
    by_cases hefn : efn = EvalFn.normal
    · rw [if_pos hefn] at hok
      cases total_counts with
      | some t => cases hok
      | none =>
        simp only [] at hok
        cases hrs : runSteps (lossClosure L efn X Y none)
            (optStep (1/10) (lossClosure L efn X Y none)) num_steps
            ⟨(allocateParams orthInit null nonlinear (numCols X)
                (numCols Y) hidden_size).2,
             (allocateParams orthInit null nonlinear (numCols X)
                (numCols Y) hidden_size).1, some 0⟩ with
        | error e => rw [hrs] at hok; cases hok
        | ok pF =>
          rw [hrs] at hok
          cases hok
          have := runSteps_ok_iterate _ _ _ _ _ hrs
          rw [this]
          exact iterate_intercept_shapes _ hpres num_steps _
    · rw [if_neg hefn] at hok
      simp only [] at hok
      cases hrs : runSteps (lossClosure L efn X Y total_counts)
          (optStep (1/10) (lossClosure L efn X Y total_counts)) num_steps
          ⟨(allocateParams orthInit null nonlinear (numCols X) (numCols Y)
              hidden_size).2,
           (allocateParams orthInit null nonlinear (numCols X) (numCols Y)
              hidden_size).1, none⟩ with
      | error e => rw [hrs] at hok; cases hok
      | ok pF =>
        rw [hrs] at hok
        cases hok
        have := runSteps_ok_iterate _ _ _ _ _ hrs
        rw [this]
        exact iterate_intercept_shapes _ hpres num_steps _
  rw [hpre] at hform
  have hne : F.params.intercepts ≠ [] := by
    intro hcon
    rw [hcon] at hform
    simp at hform
  have hlast : (F.params.intercepts.getLast?).map List.length =
      some (numCols Y) := by
    rw [← List.getLast?_map, hform]
    simp
  refine ⟨hne, hlast, ?_⟩
  intro A B
  obtain ⟨b, hb⟩ : ∃ b, F.params.intercepts.getLast? = some b := by
    cases hgl : F.params.intercepts.getLast? with
    | none => rw [hgl] at hlast; cases hlast
    | some b => exact ⟨b, rfl⟩
  unfold get_output
  by_cases hc : F.params.coeffs.length = 0
  · rw [if_pos hc, hb]
    intro hcon
    cases hcon
  · rw [if_neg hc]
    intro hcon
    cases hcon

/-- Witness for C10 at a concrete input with the identity optimizer step. -/
theorem fitted_model_intercepts_sound_witness :
    (get_fitted_model trivialLib zeroInit idStep [[1]] [[1]] none
      .multinomial true false 0 8 = .ok ⟨⟨[], [[0]], none⟩,
      .multinomial⟩) ∧
    PreservesShapes (idStep (1/10)
      (lossClosure trivialLib .multinomial [[1]] [[1]] none)) ∧
    ((⟨⟨[], [[0]], none⟩, .multinomial⟩ : Fitted).params.intercepts ≠ [] ∧
    ((⟨⟨[], [[0]], none⟩, .multinomial⟩ :
        Fitted).params.intercepts.getLast?).map List.length =
      some (numCols [[1]]) ∧
    ∀ A B : Mat, get_output trivialLib.tanh A B
      (⟨⟨[], [[0]], none⟩, .multinomial⟩ : Fitted).params.intercepts
      (⟨⟨[], [[0]], none⟩, .multinomial⟩ : Fitted).params.coeffs ≠
        .error "IndexError") :=
  ⟨rfl, fun p => ⟨rfl, rfl⟩,
   fitted_model_intercepts_sound trivialLib zeroInit idStep [[1]] [[1]]
     none .multinomial true false 0 8 ⟨⟨[], [[0]], none⟩, .multinomial⟩
     rfl (fun p => ⟨rfl, rfl⟩)⟩

/-- Summing a column divided elementwise by `s` divides the sum by `s`. -/
theorem sum_map_div (c : List ℚ) (s : ℚ) :
    (c.map (fun x => x / s)).sum = c.sum / s := by
  induction c with
  | nil => simp
  | cons a t ih => simp [ih, add_div]

/-- Dividing a column by `s` divides its mean by `s`. -/
theorem npMean_map_div (c : List ℚ) (s : ℚ) :
    npMean (c.map (fun x => x / s)) = npMean c / s := by
  unfold npMean
  rw [List.length_map, sum_map_div, div_right_comm]

/-- Dividing a column by `s` divides its variance by `s ^ 2`. -/
theorem npVariance_map_div (c : List ℚ) (s : ℚ) :
    npVariance (c.map (fun x => x / s)) = npVariance c / s ^ 2 := by
  unfold npVariance
  rw [npMean_map_div, List.length_map, List.map_map]
  have h : ((fun x => (x - npMean c / s) ^ 2) ∘ fun x => x / s) =
      fun x => (x - npMean c) ^ 2 / s ^ 2 := by
    funext x
    simp only [Function.comp]
    rw [div_sub_div_same, div_pow]
  rw [h]
  have h2 : (c.map fun x => (x - npMean c) ^ 2 / s ^ 2) =
      (c.map fun x => (x - npMean c) ^ 2).map fun y => y / s ^ 2 := by
    rw [List.map_map]
    rfl
  rw [h2, sum_map_div, div_right_comm]

/-- Element `j` of an elementwise-divided row. -/
theorem getD_zipWith_div (r stds : List ℚ) (j : Nat) (h1 : j < r.length)
    (h2 : j < stds.length) :
    (List.zipWith (fun x s => x / s) r stds).getD j 0 =
      r.getD j 0 / stds.getD j 0 := by
  induction r generalizing stds j with
  | nil => simp at h1
  | cons a t ih =>
    cases stds with
    | nil => simp at h2
    | cons s ss =>
      cases j with
      | zero => rfl
      | succ j => exact ih ss j (by simpa using h1) (by simpa using h2)

/-- Column `j` of the standardized matrix is the original column divided by
the `j`-th standard deviation. -/
theorem colAt_standardize (A : Mat) (stds : List ℚ) (j : Nat)
    (hrect : ∀ r ∈ A, r.length = stds.length) (hj : j < stds.length) :
    colAt j (standardizeMat stds A) =
      (colAt j A).map (fun x => x / stds.getD j 0) := by
  unfold colAt standardizeMat
  rw [List.map_map, List.map_map]
  apply List.map_congr_left
  intro r hr
  simp only [Function.comp]
  exact getD_zipWith_div r stds j (by rw [hrect r hr]; exact hj) hj

/-- C7 (amended): after the orchestrators' column-wise division by the
column's own standard deviation `s` (characterised by `s ^ 2 = variance`,
`s ≠ 0`; numpy's std is the non-negative square root of `npVariance`), the
column's variance is exactly 1 — hence its standard deviation is 1 — but
the column mean is scaled by `1 / s`, not left unchanged: no centering is
applied, so the mean is preserved only in the special case `s = 1`. -/
theorem standardize_variance_one (A : Mat) (stds : List ℚ) (j : Nat)
    (s : ℚ) (hrect : ∀ r ∈ A, r.length = stds.length)
    (hj : j < stds.length) (hsval : stds.getD j 0 = s) (hs : s ≠ 0)
    (hvar : s ^ 2 = npVariance (colAt j A)) :
    npVariance (colAt j (standardizeMat stds A)) = 1 ∧
    npMean (colAt j (standardizeMat stds A)) = npMean (colAt j A) / s := by
  rw [colAt_standardize A stds j hrect hj, hsval]
  constructor
  · rw [npVariance_map_div, ← hvar, div_self (pow_ne_zero 2 hs)]
  · rw [npMean_map_div]

/-- Counterexample to C7 as stated: for the column `[0, 4]` (standard
deviation 2), the standardized column has standard deviation 1 as claimed,
but its mean is 1, not the original mean 2 — division by the standard
deviation rescales the mean. -/
theorem standardize_mean_changed_cex :
    (2 : ℚ) ^ 2 = npVariance (colAt 0 ([[0], [4]] : Mat)) ∧
    (0 : ℚ) < 2 ∧
    npVariance (colAt 0 (standardizeMat [2] [[0], [4]])) = 1 ∧
    npMean (colAt 0 (standardizeMat [2] [[0], [4]])) ≠
      npMean (colAt 0 ([[0], [4]] : Mat)) := by
  norm_num [npVariance, npMean, colAt, standardizeMat]

/-- Concrete variance fact for the C7 witness column `[-1, 1]`. -/
theorem varianceDemo :
    (1 : ℚ) ^ 2 = npVariance (colAt 0 ([[-1], [1]] : Mat)) := by
  norm_num [npVariance, npMean, colAt]

/-- Witness for the amended C7 at a concrete column with unit deviation. -/
theorem standardize_variance_one_witness :
    ((∀ r ∈ ([[-1], [1]] : Mat), r.length = ([1] : List ℚ).length) ∧
      0 < ([1] : List ℚ).length ∧ ([1] : List ℚ).getD 0 0 = (1 : ℚ) ∧
      (1 : ℚ) ≠ 0 ∧
      (1 : ℚ) ^ 2 = npVariance (colAt 0 ([[-1], [1]] : Mat))) ∧
    (npVariance (colAt 0 (standardizeMat [1] [[-1], [1]])) = 1 ∧
     npMean (colAt 0 (standardizeMat [1] [[-1], [1]])) =
       npMean (colAt 0 ([[-1], [1]] : Mat)) / 1) :=
  ⟨⟨by decide, by decide, rfl, by decide, varianceDemo⟩,
   standardize_variance_one [[-1], [1]] [1] 0 1 (by decide) (by decide)
     rfl (by decide) varianceDemo⟩

/-- A successful loop-body fit decomposes into a successful model fit and a
successful evaluation, with the recorded entries determined by both. -/
theorem fitEntries_ok_destruct (L : LibFns) (orthInit : Nat → Nat → Mat)
    (optStep : ℚ → (Params → Except String ℚ) → Params → Params)
    (X Y : Mat) (tc : Option (List ℚ)) (efn : EvalFn) (nl : Bool)
    (name : String) (extra : Arr → List (String × RVal))
    (out : ℚ × List (String × RVal))
    (h : fitEntries L orthInit optStep X Y tc efn nl name extra = .ok out) :
    ∃ F r, get_fitted_model L orthInit optStep X Y tc efn false nl 10 8 =
        .ok F ∧
      F.evaluate L X Y tc = .ok r ∧
      out = (Arr.sum r.1,
        extra r.2 ++
        [("fitted_" ++ name, .num (Arr.sum r.1)),
         ("fitted_" ++ name ++ "_mean", .num (Arr.mean r.1)),
         ("fitted_" ++ name ++ "_lls", .arr r.1)]) := by
  unfold fitEntries at h
  cases h1 : get_fitted_model L orthInit optStep X Y tc efn false nl 10 8
    with
  | error e => rw [h1] at h; cases h
  | ok F =>
    rw [h1] at h
    dsimp only at h
    cases h2 : F.evaluate L X Y tc with
    | error e => rw [h2] at h; cases h
    | ok r =>
      rw [h2] at h
      dsimp only at h
      cases h
      exact ⟨F, r, rfl, h2, rfl⟩

/-- C8: the continuous orchestrator's results contain mean-squared-error
and R2 entries for the linear and nonlinear fits, each comparing the fitted
point estimate against the standardized response, and contain no pseudo-R2
entries; the categorical orchestrator's results do contain
`rho_mcf_linear` and `rho_mcf_nonlinear`, computed by the McFadden formula
from the recorded fitted and null total log-likelihoods. -/
theorem regression_metrics_no_pseudo_r2 (L : LibFns)
    (orthInit : Nat → Nat → Mat)
    (optStep : ℚ → (Params → Except String ℚ) → Params → Params)
    (mseFn r2Fn : Mat → Arr → ℚ) (stdsX stdsY : List ℚ) (X0 Y0 : Mat)
    (efn : EvalFn) (res : List (String × RVal)) (stdsX2 : List ℚ)
    (X0b probs : Mat) (tcu : List ℚ) (efn2 : EvalFn)
    (res2 : List (String × RVal))
    (hok : get_regression_likelihoods L orthInit optStep mseFn r2Fn stdsX
      stdsY X0 Y0 efn = .ok res)
    (hok2 : get_location_likelihoods L orthInit optStep stdsX2 X0b probs
      tcu efn2 = .ok res2) :
    (∃ FL rL FN rN,
      get_fitted_model L orthInit optStep (standardizeMat stdsX X0)
        (standardizeMat stdsY Y0) none efn false false 10 8 = .ok FL ∧
      FL.evaluate L (standardizeMat stdsX X0) (standardizeMat stdsY Y0)
        none = .ok rL ∧
      get_fitted_model L orthInit optStep (standardizeMat stdsX X0)
        (standardizeMat stdsY Y0) none efn false true 10 8 = .ok FN ∧
      FN.evaluate L (standardizeMat stdsX X0) (standardizeMat stdsY Y0)
        none = .ok rN ∧
      res.lookup "fitted_linear_mse" =
        some (.num (mseFn (standardizeMat stdsY Y0) rL.2)) ∧
      res.lookup "fitted_linear_r2" =
        some (.num (r2Fn (standardizeMat stdsY Y0) rL.2)) ∧
      res.lookup "fitted_nonlinear_mse" =
        some (.num (mseFn (standardizeMat stdsY Y0) rN.2)) ∧
      res.lookup "fitted_nonlinear_r2" =
        some (.num (r2Fn (standardizeMat stdsY Y0) rN.2))) ∧
    res.lookup "rho_mcf_linear" = none ∧
    res.lookup "rho_mcf_nonlinear" = none ∧
    (∃ llLin llNl llNull : ℚ,
      res2.lookup "fitted_linear" = some (.num llLin) ∧
      res2.lookup "fitted_nonlinear" = some (.num llNl) ∧
      res2.lookup "null" = some (.num llNull) ∧
      res2.lookup "rho_mcf_linear" = some (.num (rho_mcf llLin llNull)) ∧
      res2.lookup "rho_mcf_nonlinear" =
        some (.num (rho_mcf llNl llNull))) := by
  simp only [get_regression_likelihoods] at hok
  cases hL : fitEntries L orthInit optStep (standardizeMat stdsX X0)
      (standardizeMat stdsY Y0) none efn false "linear"
      (fun yhat =>
        [("fitted_linear_mse",
          RVal.num (mseFn (standardizeMat stdsY Y0) yhat)),
         ("fitted_linear_r2",
          RVal.num (r2Fn (standardizeMat stdsY Y0) yhat))]) with
  | error e => rw [hL] at hok; cases hok
  | ok lin =>
  rw [hL] at hok
  dsimp only at hok
  cases hN : fitEntries L orthInit optStep (standardizeMat stdsX X0)
      (standardizeMat stdsY Y0) none efn true "nonlinear"
      (fun yhat =>
        [("fitted_nonlinear_mse",
          RVal.num (mseFn (standardizeMat stdsY Y0) yhat)),
         ("fitted_nonlinear_r2",
          RVal.num (r2Fn (standardizeMat stdsY Y0) yhat))]) with
  | error e => rw [hN] at hok; cases hok
  | ok nl =>
  rw [hN] at hok
  dsimp only at hok
  cases hF : get_fitted_model L orthInit optStep (standardizeMat stdsX X0)
      (standardizeMat stdsY Y0) none efn true false 10 8 with
  | error e => rw [hF] at hok; cases hok
  | ok Fn =>
  rw [hF] at hok
  dsimp only at hok
  cases hE : Fn.evaluate L (standardizeMat stdsX X0)
      (standardizeMat stdsY Y0) none with
  | error e => rw [hE] at hok; cases hok
  | ok rn =>
  rw [hE] at hok
  dsimp only at hok
  cases hok
  obtain ⟨FL, rL, hFL, hRL, hlinEq⟩ := fitEntries_ok_destruct _ _ _ _ _ _
    _ _ _ _ _ hL
  obtain ⟨FN, rN, hFN, hRN, hnlEq⟩ := fitEntries_ok_destruct _ _ _ _ _ _
    _ _ _ _ _ hN
  subst hlinEq
  subst hnlEq
  simp only [get_location_likelihoods] at hok2
  cases hL2 : fitEntries L orthInit optStep (standardizeMat stdsX2 X0b)
      (List.zipWith (fun t r => r.map fun p => t * p) tcu probs)
      (some tcu) efn2 false "linear" (fun _ => []) with
  | error e => rw [hL2] at hok2; cases hok2
  | ok lin2 =>
  rw [hL2] at hok2
  dsimp only at hok2
  cases hN2 : fitEntries L orthInit optStep (standardizeMat stdsX2 X0b)
      (List.zipWith (fun t r => r.map fun p => t * p) tcu probs)
      (some tcu) efn2 true "nonlinear" (fun _ => []) with
  | error e => rw [hN2] at hok2; cases hok2
  | ok nl2 =>
  rw [hN2] at hok2
  dsimp only at hok2
  cases hF2 : get_fitted_model L orthInit optStep
      (standardizeMat stdsX2 X0b)
      (List.zipWith (fun t r => r.map fun p => t * p) tcu probs)
      (some tcu) efn2 true false 10 8 with
  | error e => rw [hF2] at hok2; cases hok2
  | ok Fn2 =>
  rw [hF2] at hok2
  dsimp only at hok2
  cases hE2 : Fn2.evaluate L (standardizeMat stdsX2 X0b)
      (List.zipWith (fun t r => r.map fun p => t * p) tcu probs)
      (some tcu) with
  | error e => rw [hE2] at hok2; cases hok2
  | ok rn2 =>
  rw [hE2] at hok2
  dsimp only at hok2
  cases hok2
  obtain ⟨FL2, rL2, hFL2, hRL2, hlinEq2⟩ := fitEntries_ok_destruct _ _ _ _
    _ _ _ _ _ _ _ hL2
  obtain ⟨FN2, rN2, hFN2, hRN2, hnlEq2⟩ := fitEntries_ok_destruct _ _ _ _
    _ _ _ _ _ _ _ hN2
  subst hlinEq2
  subst hnlEq2
  refine ⟨⟨FL, rL, FN, rN, hFL, hRL, hFN, hRN, ?_, ?_, ?_, ?_⟩, ?_, ?_,
    ⟨Arr.sum rL2.1, Arr.sum rN2.1, Arr.sum rn2.1, ?_, ?_, ?_, ?_, ?_⟩⟩ <;>
    simp [List.lookup]

/-- Standardizing the zero column by deviation 1 gives the zero column. -/
theorem stdDemo : standardizeMat [1] [[(0 : ℚ)]] = [[0]] := by
  norm_num [standardizeMat]

/-- The count matrix recovered from zero proportions and counts is zero. -/
theorem countsDemo :
    List.zipWith (fun t r => r.map fun p => t * p) [(0 : ℚ)] [[0]] =
      [[0]] := by
  norm_num

/-- Zero-data linear fit (any total counts, multinomial evaluator). -/
theorem fitLinModelDemo (tc : Option (List ℚ)) :
    get_fitted_model trivialLib zeroInit idStep [[0]] [[0]] tc
      .multinomial false false 10 8 =
      .ok ⟨⟨[[[0]]], [[0]], none⟩, .multinomial⟩ := by
  simp [get_fitted_model, allocateParams, runSteps, lossClosure,
    runEval, evaluate_multinomial, get_output, getOutputLoop, matMul,
    transposeQ, addBias, mapMat, dot, numCols, zeroInit, idStep,
    trivialLib, Arr.sum, List.replicate]

/-- Evaluating the zero-data linear fit. -/
theorem fitLinEvalDemo (tc : Option (List ℚ)) :
    Fitted.evaluate ⟨⟨[[[0]]], [[0]], none⟩, .multinomial⟩ trivialLib
      [[0]] [[0]] tc = .ok (Arr.vec [0], Arr.mat [[0]]) := by
  simp [Fitted.evaluate, runEval, evaluate_multinomial, get_output,
    getOutputLoop, matMul, transposeQ, addBias, mapMat, dot, numCols,
    trivialLib]

/-- Zero-data nonlinear fit (hidden width 8). -/
theorem fitNlModelDemo (tc : Option (List ℚ)) :
    get_fitted_model trivialLib zeroInit idStep [[0]] [[0]] tc
      .multinomial false true 10 8 =
      .ok ⟨⟨[[[0, 0, 0, 0, 0, 0, 0, 0]],
             [[0], [0], [0], [0], [0], [0], [0], [0]]],
            [[0, 0, 0, 0, 0, 0, 0, 0], [0]], none⟩, .multinomial⟩ := by
  simp [get_fitted_model, allocateParams, runSteps, lossClosure,
    runEval, evaluate_multinomial, get_output, getOutputLoop, matMul,
    transposeQ, addBias, mapMat, dot, numCols, zeroInit, idStep,
    trivialLib, Arr.sum, List.replicate]

/-- Evaluating the zero-data nonlinear fit. -/
theorem fitNlEvalDemo (tc : Option (List ℚ)) :
    Fitted.evaluate
      ⟨⟨[[[0, 0, 0, 0, 0, 0, 0, 0]],
         [[0], [0], [0], [0], [0], [0], [0], [0]]],
        [[0, 0, 0, 0, 0, 0, 0, 0], [0]], none⟩, .multinomial⟩ trivialLib
      [[0]] [[0]] tc = .ok (Arr.vec [0], Arr.mat [[0]]) := by
  simp [Fitted.evaluate, runEval, evaluate_multinomial, get_output,
    getOutputLoop, matMul, transposeQ, addBias, mapMat, dot, numCols,
    trivialLib]

/-- Zero-data null fit. -/
theorem fitNullModelDemo (tc : Option (List ℚ)) :
    get_fitted_model trivialLib zeroInit idStep [[0]] [[0]] tc
      .multinomial true false 10 8 =
      .ok ⟨⟨[], [[0]], none⟩, .multinomial⟩ := by
  simp [get_fitted_model, allocateParams, runSteps, lossClosure,
    runEval, evaluate_multinomial, get_output, getOutputLoop, matMul,
    transposeQ, addBias, mapMat, dot, numCols, zeroInit, idStep,
    trivialLib, Arr.sum, List.replicate]

/-- Evaluating the zero-data null fit. -/
theorem fitNullEvalDemo (tc : Option (List ℚ)) :
    Fitted.evaluate ⟨⟨[], [[0]], none⟩, .multinomial⟩ trivialLib
      [[0]] [[0]] tc = .ok (Arr.vec [0], Arr.mat [[0]]) := by
  simp [Fitted.evaluate, runEval, evaluate_multinomial, get_output,
    getOutputLoop, addBias, mapMat, numCols, trivialLib]


/-- Concrete zero-data run of the continuous orchestrator, used by the C8
witness. -/
theorem regression_demo :
    get_regression_likelihoods trivialLib zeroInit idStep zeroMetric
      zeroMetric [1] [1] [[0]] [[0]] .multinomial = .ok regDemoRes := by
  simp only [get_regression_likelihoods, fitEntries, stdDemo]
  rw [fitLinModelDemo none]
  dsimp only
  rw [fitLinEvalDemo none]
  dsimp only
  rw [fitNlModelDemo none]
  dsimp only
  rw [fitNlEvalDemo none]
  dsimp only
  rw [fitNullModelDemo none]
  dsimp only
  rw [fitNullEvalDemo none]
  dsimp only
  simp [Arr.sum, Arr.mean, Arr.numel, zeroMetric, regDemoRes]

/-- Concrete zero-data run of the categorical orchestrator, used by the C8
witness. -/
theorem location_demo :
    get_location_likelihoods trivialLib zeroInit idStep [1] [[0]] [[0]]
      [0] .multinomial = .ok locDemoRes := by
  simp only [get_location_likelihoods, fitEntries, stdDemo, countsDemo]
  rw [fitLinModelDemo (some [0])]
  dsimp only
  rw [fitLinEvalDemo (some [0])]
  dsimp only
  rw [fitNlModelDemo (some [0])]
  dsimp only
  rw [fitNlEvalDemo (some [0])]
  dsimp only
  rw [fitNullModelDemo (some [0])]
  dsimp only
  rw [fitNullEvalDemo (some [0])]
  dsimp only
  simp [Arr.sum, Arr.mean, Arr.numel, rho_mcf, locDemoRes]

/-- Witness for C8 at concrete zero data for both orchestrators. -/
theorem regression_metrics_no_pseudo_r2_witness :
    (get_regression_likelihoods trivialLib zeroInit idStep zeroMetric
      zeroMetric [1] [1] [[0]] [[0]] .multinomial = .ok regDemoRes) ∧
    (get_location_likelihoods trivialLib zeroInit idStep [1] [[0]] [[0]]
      [0] .multinomial = .ok locDemoRes) ∧
    ((∃ FL rL FN rN,
      get_fitted_model trivialLib zeroInit idStep
        (standardizeMat [1] [[0]]) (standardizeMat [1] [[0]]) none
        .multinomial false false 10 8 = .ok FL ∧
      FL.evaluate trivialLib (standardizeMat [1] [[0]])
        (standardizeMat [1] [[0]]) none = .ok rL ∧
      get_fitted_model trivialLib zeroInit idStep
        (standardizeMat [1] [[0]]) (standardizeMat [1] [[0]]) none
        .multinomial false true 10 8 = .ok FN ∧
      FN.evaluate trivialLib (standardizeMat [1] [[0]])
        (standardizeMat [1] [[0]]) none = .ok rN ∧
      regDemoRes.lookup "fitted_linear_mse" =
        some (.num (zeroMetric (standardizeMat [1] [[0]]) rL.2)) ∧
      regDemoRes.lookup "fitted_linear_r2" =
        some (.num (zeroMetric (standardizeMat [1] [[0]]) rL.2)) ∧
      regDemoRes.lookup "fitted_nonlinear_mse" =
        some (.num (zeroMetric (standardizeMat [1] [[0]]) rN.2)) ∧
      regDemoRes.lookup "fitted_nonlinear_r2" =
        some (.num (zeroMetric (standardizeMat [1] [[0]]) rN.2))) ∧
     regDemoRes.lookup "rho_mcf_linear" = none ∧
     regDemoRes.lookup "rho_mcf_nonlinear" = none ∧
     (∃ llLin llNl llNull : ℚ,
      locDemoRes.lookup "fitted_linear" = some (.num llLin) ∧
      locDemoRes.lookup "fitted_nonlinear" = some (.num llNl) ∧
      locDemoRes.lookup "null" = some (.num llNull) ∧
      locDemoRes.lookup "rho_mcf_linear" =
        some (.num (rho_mcf llLin llNull)) ∧
      locDemoRes.lookup "rho_mcf_nonlinear" =
        some (.num (rho_mcf llNl llNull)))) :=
  ⟨regression_demo, location_demo,
   regression_metrics_no_pseudo_r2 trivialLib zeroInit idStep zeroMetric
     zeroMetric [1] [1] [[0]] [[0]] .multinomial regDemoRes [1] [[0]]
     [[0]] [0] .multinomial locDemoRes regression_demo location_demo⟩

end BBNet
